import Mathlib

/-!
Verification of the metadata cache subsystem of the pickford backend
(`src/backend/app.js` and `src/backend/lib/db-mongodb.js`).

We shallowly embed the JavaScript values flowing through the cache code as an
inductive `JVal` (with an explicit `undefined`, since the code distinguishes
`x !== undefined` from other falsy values), embed the MongoDB-backed cache
store (`cacheResponse` / `getCachedResponse` / `updateCachedResponse`), the
`/api/trakt-new/*` route handler with its cache-hit shape normalization,
enrichment backfill and batch seeding, and the plain `/api/trakt/*`
passthrough route.  Upstream HTTP calls are oracles passed in as parameters;
a thrown error inside a try/catch region is modelled by an explicit failure
value for that region's oracle.
-/

namespace Pickford

/-- JavaScript values as they flow through the cache subsystem.  `undefined`
is a separate constructor because the source tests `!== undefined`.  Objects
are association lists in property order. -/
inductive JVal where
  | undefined
  | null
  | bool (b : Bool)
  | num (n : Int)
  | str (s : String)
  | arr (elems : List JVal)
  | obj (fields : List (String × JVal))
deriving Inhabited

namespace JVal

/-- JS property access `v.k` in the non-throwing cases: a missing property,
or access on a non-object primitive, yields `undefined`.  Access on
`null`/`undefined` throws a TypeError in JS; the places where the source
can perform such an access (the array-loop decode of
`saveIndividualItemsFromResponse` and its single-object fallback) model
the throw explicitly via `jsAccessThrows` before calling `get`; every
other access in the modelled code is guarded or on a document. -/
def get : JVal → String → JVal
  | .obj fs, k =>
    match fs.find? (fun p => p.1 = k) with
    | some p => p.2
    | none => .undefined
  | _, _ => .undefined

/-- JS truthiness. -/
def truthy : JVal → Bool
  | .undefined => false
  | .null => false
  | .bool b => b
  | .num n => n != 0
  | .str s => s != ""
  | .arr _ => true
  | .obj _ => true

/-- JS `v !== undefined`. -/
def isDefined : JVal → Bool
  | .undefined => false
  | _ => true

end JVal

/-- Whether JS property access on this value throws a TypeError: it does
exactly on `null` and `undefined`. -/
def jsAccessThrows : JVal → Bool
  | .null => true
  | .undefined => true
  | _ => false

/-- JS `a && b`: the first operand when falsy, otherwise the second. -/
def jsAnd (a b : JVal) : JVal := if a.truthy then b else a

/-- JS `a || b`: the first operand when truthy, otherwise the second. -/
def jsOr (a b : JVal) : JVal := if a.truthy then a else b

/-- Property assignment into an association list: overwrite an existing key
in place, otherwise append (JS property order: existing keys keep their
position, new keys go last). -/
def setField (fs : List (String × JVal)) (k : String) (v : JVal) :
    List (String × JVal) :=
  if fs.any (fun p => p.1 = k) then
    fs.map (fun p => if p.1 = k then (k, v) else p)
  else fs ++ [(k, v)]

/-- JS `delete o.k` on an association list. -/
def delField (fs : List (String × JVal)) (k : String) :
    List (String × JVal) :=
  fs.filter (fun p => p.1 != k)

namespace JVal

/-- JS property assignment `o.k = v`.  On a non-object this is a silent
no-op (sloppy-mode primitives; named properties set on arrays are invisible
to both `JSON.stringify` and object spread of the indexed view, see
`ownFields`). -/
def set : JVal → String → JVal → JVal
  | .obj fs, k, v => .obj (setField fs k v)
  | x, _, _ => x

/-- The own enumerable properties seen by object spread `{...v}`: an
object's fields, an array's indexed elements; primitives, `null` and
`undefined` spread to nothing.  (String index spreading is not used by the
modelled code paths.) -/
def ownFields : JVal → List (String × JVal)
  | .obj fs => fs
  | .arr xs => xs.enum.map (fun p => (toString p.1, p.2))
  | _ => []

/-- JS object literal `{...v, k1: v1, ..., kn: vn}`. -/
def spreadWith (v : JVal) (extra : List (String × JVal)) : JVal :=
  .obj (extra.foldl (fun acc p => setField acc p.1 p.2) v.ownFields)

end JVal

/- What `res.json` / `JSON.stringify` sends: object properties whose value
is `undefined` are dropped, array holes of `undefined` become `null`,
recursively (`toWireL` serializes array elements, `toWireF` object
fields). -/
mutual

def toWire : JVal → JVal
  | .undefined => .null
  | .null => .null
  | .bool b => .bool b
  | .num n => .num n
  | .str s => .str s
  | .arr xs => .arr (toWireL xs)
  | .obj fs => .obj (toWireF fs)

def toWireL : List JVal → List JVal
  | [] => []
  | x :: xs => toWire x :: toWireL xs

def toWireF : List (String × JVal) → List (String × JVal)
  | [] => []
  | (k, v) :: fs =>
    if v.isDefined then (k, toWire v) :: toWireF fs else toWireF fs

end

/-- JS `String(x)` as used on `movie.ids.trakt.toString()`; only numbers and
strings occur as trakt ids in practice, the other cases follow JS except
that array join is not recursed (unreachable for ids). -/
def jsToString : JVal → String
  | .num n => toString n
  | .str s => s
  | .bool b => if b then "true" else "false"
  | .null => "null"
  | .undefined => "undefined"
  | .arr _ => ""
  | .obj _ => "[object Object]"

/-- JS `s.startsWith(p)` over the underlying character lists. -/
def strStartsWith (s p : String) : Bool :=
  p.data.isPrefixOf s.data

/-- Occurrence of `needle` as a contiguous sublist of the second list. -/
def listIncludes (needle : List Char) : List Char → Bool
  | [] => needle.isEmpty
  | c :: t => needle.isPrefixOf (c :: t) || listIncludes needle t

/-- JS `s.includes(sub)`. -/
def pathIncludes (s sub : String) : Bool :=
  listIncludes sub.data s.data

/-- A matched-key test for `key.match(/^\d+$/)`. -/
def isNumericKey (s : String) : Bool :=
  s ≠ "" && s.toList.all Char.isDigit

/-- A document of the `cache` collection.  `fields` are the schema-free
payload fields of the document; the bookkeeping `key`, `createdAt`,
`updatedAt` and `_id` are held outside of it (they do not collide with any
field the cache code reads or writes).  Timestamps are milliseconds since
epoch as rationals, so the TTL check is the source's real-valued hour
difference. -/
structure CacheDoc where
  fields : List (String × JVal)
  createdAt : ℚ
  updatedAt : Option ℚ

/-- The document store: the `connected` flag of `db-mongodb.js` plus the
`cache` collection keyed by the `key` field. -/
structure DB where
  connected : Bool
  cache : String → Option CacheDoc

/-- `db-mongodb.js` `cacheResponse(key, data)`:
`updateOne({key}, {$set: {data, createdAt: new Date()}}, {upsert: true})` —
on an existing document only the `data` and `createdAt` fields are set
(other fields, including a stale `updatedAt`, survive); otherwise a fresh
document is created.  A disconnected store makes it a no-op. -/
def cacheResponse (db : DB) (key : String) (payload : JVal) (now : ℚ) : DB :=
  if db.connected then
    { db with cache := fun k =>
        if k = key then
          match db.cache key with
          | some old =>
              some { fields := setField old.fields "data" payload,
                     createdAt := now, updatedAt := old.updatedAt }
          | none =>
              some { fields := [("data", payload)],
                     createdAt := now, updatedAt := none }
        else db.cache k }
  else db

/-- `db-mongodb.js` `getCachedResponse(key)`: `findOne({key})`, then a
read-time freshness check `(now − createdAt) / (1000·60·60) > 24 ⇒ null`.
The read never modifies the collection (it takes no store and returns
none). -/
def getCachedResponse (db : DB) (key : String) (now : ℚ) : Option CacheDoc :=
  if !db.connected then none
  else
    match db.cache key with
    | none => none
    | some cached =>
        if (now - cached.createdAt) / (1000 * 60 * 60) > 24 then none
        else some cached

/-- `db-mongodb.js` `updateCachedResponse(key, data)`:
`updateOne({key}, {$set: {data, updatedAt: new Date()}})` with NO `upsert`
option — when no document matches `key`, nothing is written. -/
def updateCachedResponse (db : DB) (key : String) (payload : JVal) (now : ℚ) :
    DB :=
  if db.connected then
    { db with cache := fun k =>
        if k = key then
          match db.cache key with
          | some old =>
              some { fields := setField old.fields "data" payload,
                     createdAt := old.createdAt, updatedAt := some now }
          | none => none
        else db.cache k }
  else db

/-! ## The `/api/trakt-new/*` route (app.js lines 248-356) -/

/-- Outcome of the primary upstream `fetch` + `response.json()`: HTTP status
and parsed body, or a thrown error (network failure / JSON parse failure)
with its message. -/
inductive MainFetchOutcome where
  | ok (status : Nat) (json : JVal)
  | fail (msg : String)

/-- Outcome of the enrichment image fetch + `response.json()`. -/
inductive FetchOutcome where
  | ok (json : JVal)
  | fail (msg : String)

/-- The cacheable path list of app.js lines 273-276. -/
def cacheablePaths : List String :=
  ["/movies/", "/shows/", "/search/", "/movies/trending/",
   "/shows/trending/", "/movies/popular/", "/shows/popular/"]

/-- app.js lines 273-276: cache lookup happens only for GET requests whose
path starts with one of `cacheablePaths`. -/
def isCacheableReq (method path : String) : Bool :=
  method == "GET" && cacheablePaths.any (fun p => strStartsWith path p)

/-- Result of the cache-hit shape handling of app.js lines 281-299. -/
structure HitNorm where
  data : JVal
  cacheStatus : JVal
  docFields : List (String × JVal)

/-- app.js lines 281-299.  `data` is the value assigned by the branch,
`cacheStatus` the value of the `cacheStatus` variable, and `docFields` the
document's fields after the branch ran.  In the direct branch `data`
aliases `cached`, so the in-place `delete data._hasImages` /
`delete data._cacheStatus` statements also mutate `cached`, which the
subsequent `hasImages` computation reads — hence `docFields` differs from
`doc.fields` exactly there. -/
def processHit (doc : CacheDoc) : HitNorm :=
  let d := JVal.obj doc.fields
  if (d.get "data").truthy && ((d.get "data").get "data").truthy then
    { data := (d.get "data").get "data", cacheStatus := .str "HIT",
      docFields := doc.fields }
  else if (d.get "data").truthy then
    { data := d.get "data", cacheStatus := .str "HIT",
      docFields := doc.fields }
  else
    let cs := jsOr (d.get "_cacheStatus") (.str "HIT")
    let fs1 :=
      if (d.get "_hasImages").isDefined then delField doc.fields "_hasImages"
      else doc.fields
    let fs2 :=
      if ((JVal.obj fs1).get "_cacheStatus").isDefined then
        delField fs1 "_cacheStatus"
      else fs1
    { data := JVal.obj fs2, cacheStatus := cs, docFields := fs2 }

/-- app.js lines 302-303: `const hasImages = cached._hasImages !== undefined
? cached._hasImages : (cached.data && cached.data.hasImages !== undefined ?
cached.data.hasImages : false)`, evaluated on the (possibly mutated)
document fields. -/
def hitHasImages (docFields : List (String × JVal)) : JVal :=
  let d := JVal.obj docFields
  if (d.get "_hasImages").isDefined then d.get "_hasImages"
  else if (d.get "data").truthy && ((d.get "data").get "hasImages").isDefined
  then (d.get "data").get "hasImages"
  else .bool false

/-- Result of the enrichment block: the (possibly image-merged) `data`
value, the store after the optional `updateCachedResponse`, and the number
of upstream image fetches issued (always 1 — the block always fetches). -/
structure EnrichResult where
  data : JVal
  db : DB
  fetches : Nat

/-- app.js lines 307-319: the enrichment backfill try/catch.  One image
fetch is always issued; on a thrown error (caught and logged) `data` and
the store are untouched.  On success with `imagesData.movie.images`
present, `data.movie = {...data.movie, images}` and the entry is rewritten
through `updateCachedResponse` with `_hasImages: true`.  Property
assignment on a `null`/`undefined` `data` would throw (caught), skipping
the update. -/
def enrichImages (data : JVal) (db : DB) (cacheKey : String) (now : ℚ)
    (imagesFetch : FetchOutcome) : EnrichResult :=
  match imagesFetch with
  | .fail _ => { data := data, db := db, fetches := 1 }
  | .ok imagesData =>
    if (imagesData.get "movie").truthy &&
        ((imagesData.get "movie").get "images").truthy then
      match data with
      | .null => { data := data, db := db, fetches := 1 }
      | .undefined => { data := data, db := db, fetches := 1 }
      | _ =>
        let newMovie := (data.get "movie").spreadWith
          [("images", (imagesData.get "movie").get "images")]
        let data1 := data.set "movie" newMovie
        { data := data1,
          db := updateCachedResponse db cacheKey
            (data1.spreadWith
              [("_hasImages", .bool true), ("_cacheStatus", .str "HIT")]) now,
          fetches := 1 }
    else { data := data, db := db, fetches := 1 }

/-! ## Batch seeding (app.js lines 131-245) -/

/-- app.js line 193: `const movie = item.movie || item`. -/
def movieFromItem (item : JVal) : JVal := jsOr (item.get "movie") item

/-- app.js line 198: the per-item cache key `trakt-movies-<id>`. -/
def movieSeedKey (item : JVal) : String :=
  "trakt-movies-" ++ jsToString (((movieFromItem item).get "ids").get "trakt")

/-- app.js lines 205-210: the payload written by batch seeding. -/
def movieSeedPayload (item : JVal) : JVal :=
  (movieFromItem item).spreadWith
    [("_hasImages", .bool ((movieFromItem item).get "images").truthy),
     ("_cacheStatus", .str "HIT"),
     ("_source", .str "trending-popular")]

/-- app.js line 222: `const show = item.show || item`. -/
def showFromItem (item : JVal) : JVal := jsOr (item.get "show") item

/-- app.js line 227: the per-item cache key `trakt-shows-<id>`. -/
def showSeedKey (item : JVal) : String :=
  "trakt-shows-" ++ jsToString (((showFromItem item).get "ids").get "trakt")

/-- app.js lines 234-239: the payload written by batch seeding. -/
def showSeedPayload (item : JVal) : JVal :=
  (showFromItem item).spreadWith
    [("_hasImages", .bool ((showFromItem item).get "images").truthy),
     ("_cacheStatus", .str "HIT"),
     ("_source", .str "trending-popular")]

/-- app.js lines 189-216 `cacheMovieItem(item)`.  `fault item = true`
models a store error thrown inside the try/catch (caught and logged,
leaving the store unchanged).  Note the existence check goes through
`getCachedResponse`, which filters TTL-stale documents. -/
def cacheMovieItem (db : DB) (item : JVal) (now : ℚ)
    (fault : JVal → Bool) : DB :=
  if fault item then db
  else
    let movie := movieFromItem item
    if !movie.truthy || !(movie.get "ids").truthy ||
        !((movie.get "ids").get "trakt").truthy then db
    else
      match getCachedResponse db (movieSeedKey item) now with
      | some _ => db
      | none =>
          cacheResponse db (movieSeedKey item) (movieSeedPayload item) now

/-- app.js lines 219-245 `cacheShowItem(item)`, symmetric to
`cacheMovieItem`. -/
def cacheShowItem (db : DB) (item : JVal) (now : ℚ)
    (fault : JVal → Bool) : DB :=
  if fault item then db
  else
    let showV := showFromItem item
    if !showV.truthy || !(showV.get "ids").truthy ||
        !((showV.get "ids").get "trakt").truthy then db
    else
      match getCachedResponse db (showSeedKey item) now with
      | some _ => db
      | none =>
          cacheResponse db (showSeedKey item) (showSeedPayload item) now

/-- app.js lines 152-175: the decode chain for one numeric-keyed element. -/
def seedKeyedItem (db : DB) (item : JVal) (isMovie isShow : Bool) (now : ℚ)
    (fault : JVal → Bool) : DB :=
  let hasMovieFields := jsAnd item
    (jsOr (item.get "title") (jsOr (item.get "year") (item.get "released")))
  let hasShowFields := jsAnd item
    (jsOr (item.get "first_aired")
      (jsOr (item.get "seasons") (item.get "episode_count")))
  if isMovie && hasMovieFields.truthy then cacheMovieItem db item now fault
  else if isShow && hasShowFields.truthy then cacheShowItem db item now fault
  else if hasMovieFields.truthy && (item.get "movie").truthy then
    cacheMovieItem db item now fault
  else if hasShowFields.truthy && (item.get "show").truthy then
    cacheShowItem db item now fault
  else if isMovie && item.truthy then cacheMovieItem db item now fault
  else if isShow && item.truthy then cacheShowItem db item now fault
  else db

/-- app.js lines 141-147: the loop body for one array element, with JS
evaluation order.  `item.movie` (respectively `item.show`, reached only
when the first condition did not throw) raises a TypeError when `item` is
`null`/`undefined`; that exception escapes the loop — `.error` carries the
store as of the throw.  `cacheMovieItem`/`cacheShowItem` never throw
outward (they have their own try/catch). -/
def seedArrayItem (isMovie isShow : Bool) (now : ℚ) (fault : JVal → Bool)
    (db : DB) (item : JVal) : Except DB DB :=
  if isMovie && jsAccessThrows item then .error db
  else if isMovie && (item.get "movie").truthy then
    .ok (cacheMovieItem db (item.get "movie") now fault)
  else if isShow && jsAccessThrows item then .error db
  else if isShow && (item.get "show").truthy then
    .ok (cacheShowItem db (item.get "show") now fault)
  else .ok db

/-- app.js lines 140-148: the `for (const item of data)` loop; a thrown
element aborts the loop, keeping the writes made so far. -/
def seedArrayLoop (isMovie isShow : Bool) (now : ℚ) (fault : JVal → Bool) :
    DB → List JVal → Except DB DB
  | db, [] => .ok db
  | db, item :: rest =>
    match seedArrayItem isMovie isShow now fault db item with
    | .error db2 => .error db2
    | .ok db2 => seedArrayLoop isMovie isShow now fault db2 rest

/-- app.js lines 151-176: the loop body for one object property. -/
def seedObjectField (isMovie isShow : Bool) (now : ℚ) (fault : JVal → Bool)
    (db : DB) (p : String × JVal) : DB :=
  if isNumericKey p.1 then seedKeyedItem db p.2 isMovie isShow now fault
  else db

/-- app.js lines 132-187 `saveIndividualItemsFromResponse(data, path)`.
Object properties are traversed in field order (the modelled code never
relies on JS integer-key reordering).  A store error thrown inside
`cacheMovieItem` / `cacheShowItem` is caught per element, but a TypeError
raised by the loop body's own `item.movie` / `item.show` access (a
`null`/`undefined` array element) propagates to the function-level catch
of line 184, aborting the remaining elements; the catch logs and returns,
keeping the writes made before the throw.  The numeric-key decode chain is
fully guarded by `item &&`, so the object branch never throws; the
single-object fallback's `data.movie` access throws on a `null` body,
likewise caught at function level. -/
def saveIndividualItemsFromResponse (db : DB) (data : JVal) (path : String)
    (now : ℚ) (fault : JVal → Bool) : DB :=
  let isMovie := pathIncludes path "/movies/"
  let isShow := pathIncludes path "/shows/"
  if !isMovie && !isShow then db
  else
    match data with
    | .arr items =>
        match seedArrayLoop isMovie isShow now fault db items with
        | .ok db2 => db2
        | .error db2 => db2
    | .obj fs => fs.foldl (seedObjectField isMovie isShow now fault) db
    | other =>
        if isMovie && jsAccessThrows other then db
        else if isMovie && (other.get "movie").truthy then
          cacheMovieItem db (other.get "movie") now fault
        else if isShow && jsAccessThrows other then db
        else if isShow && (other.get "show").truthy then
          cacheShowItem db (other.get "show") now fault
        else db

/-! ## The route handlers -/

/-- app.js line 337: `const hasImages = data.movie && data.movie.images`
on the miss path (a JS value, not a boolean: the `images` object itself
when present, `undefined`/falsy otherwise). -/
def missHasImages (json : JVal) : JVal :=
  jsAnd (json.get "movie") ((json.get "movie").get "images")

/-- app.js line 339: the payload stored on the miss path,
`{ ...data, _hasImages: hasImages, _cacheStatus: "HIT" }`. -/
def missCachePayload (json : JVal) : JVal :=
  json.spreadWith
    [("_hasImages", missHasImages json), ("_cacheStatus", .str "HIT")]

/-- What one request produces: HTTP status, whether the
`x-proxied-by: trakt-proxy` header was set, the `x-cache` header value (if
set), the JSON body as serialized to the client, the store afterwards, and
the number of primary/enrichment upstream fetches issued. -/
structure ReqOutcome where
  status : Nat
  proxiedBy : Bool
  xCache : Option JVal
  body : JVal
  db : DB
  mainFetches : Nat
  enrichFetches : Nat

/-- Result of the cache-lookup phase (app.js lines 270-322): the `data`
and `cacheStatus` variables, the store after a possible enrichment write,
and the enrichment fetch count. -/
structure HitPhase where
  data : JVal
  cacheStatus : JVal
  db : DB
  enrichFetches : Nat

/-- app.js lines 272-322. -/
def traktNewHitPhase (db : DB) (path cacheKey : String) (now : ℚ)
    (method : String) (imagesFetch : FetchOutcome) : HitPhase :=
  if isCacheableReq method path then
    match getCachedResponse db cacheKey now with
    | some doc =>
      let h := processHit doc
      if !(hitHasImages h.docFields).truthy && strStartsWith path "/movies/" then
        let e := enrichImages h.data db cacheKey now imagesFetch
        { data := e.data, cacheStatus := h.cacheStatus, db := e.db,
          enrichFetches := e.fetches }
      else
        { data := h.data, cacheStatus := h.cacheStatus, db := db,
          enrichFetches := 0 }
    | none =>
        { data := .undefined, cacheStatus := .str "MISS", db := db,
          enrichFetches := 0 }
  else
    { data := .undefined, cacheStatus := .str "MISS", db := db,
      enrichFetches := 0 }

/-- app.js lines 248-356, the `/api/trakt-new/*` handler.  `queryStr` is
`JSON.stringify(req.query)` (only its concatenation into the cache key
matters).  Note the source checks `if (!data)` — JS truthiness — before
falling through to the primary fetch, keeps whatever `cacheStatus` the hit
phase set, always answers `res.status(200)` on the fetch path regardless
of the upstream status, caches every GET response (cacheable-path or not),
and seeds items when the path contains `/trending` or `/popular`. -/
def traktNewHandler (db : DB) (clientIdSet : Bool)
    (method path queryStr : String) (now : ℚ)
    (mainFetch : MainFetchOutcome) (imagesFetch : FetchOutcome)
    (seedFault : JVal → Bool) : ReqOutcome :=
  if !clientIdSet then
    { status := 500, proxiedBy := false, xCache := none,
      body := .obj [("error", .str "TRAKT_CLIENT_ID not configured")],
      db := db, mainFetches := 0, enrichFetches := 0 }
  else
    let cacheKey := path ++ queryStr
    let hp := traktNewHitPhase db path cacheKey now method imagesFetch
    if hp.data.truthy then
      { status := 200, proxiedBy := true, xCache := some hp.cacheStatus,
        body := toWire hp.data, db := hp.db, mainFetches := 0,
        enrichFetches := hp.enrichFetches }
    else
      match mainFetch with
      | .fail msg =>
          { status := 502, proxiedBy := false, xCache := none,
            body := .obj [("error", .str "Upstream request failed"),
                          ("detail", .str msg)],
            db := hp.db, mainFetches := 1,
            enrichFetches := hp.enrichFetches }
      | .ok _ json =>
          let db2 :=
            if method == "GET" then
              let dbW := cacheResponse hp.db cacheKey (missCachePayload json) now
              if pathIncludes path "/trending" || pathIncludes path "/popular"
              then saveIndividualItemsFromResponse dbW json path now seedFault
              else dbW
            else hp.db
          { status := 200, proxiedBy := true, xCache := some hp.cacheStatus,
            body := toWire json, db := db2, mainFetches := 1,
            enrichFetches := hp.enrichFetches }

/-- app.js lines 91-129, the plain `/api/trakt/*` passthrough route: no
cache involvement, the upstream status is forwarded verbatim
(`res.status(response.status)`).  The api-log insert touches an unrelated
collection and is omitted. -/
def traktPassthrough (clientIdSet : Bool)
    (mainFetch : MainFetchOutcome) : ReqOutcome :=
  if !clientIdSet then
    { status := 500, proxiedBy := false, xCache := none,
      body := .obj [("error", .str "TRAKT_CLIENT_ID not configured")],
      db := { connected := false, cache := fun _ => none },
      mainFetches := 0, enrichFetches := 0 }
  else
    match mainFetch with
    | .fail msg =>
        { status := 502, proxiedBy := false, xCache := none,
          body := .obj [("error", .str "Upstream request failed"),
                        ("detail", .str msg)],
          db := { connected := false, cache := fun _ => none },
          mainFetches := 1, enrichFetches := 0 }
    | .ok st json =>
        { status := st, proxiedBy := true, xCache := none,
          body := toWire json,
          db := { connected := false, cache := fun _ => none },
          mainFetches := 1, enrichFetches := 0 }

/-! ## Concrete scenario inputs used by the closed theorems -/

/-- An available store with an empty cache collection. -/
def emptyStore : DB := { connected := true, cache := fun _ => none }

/-- An available store holding exactly one document. -/
def singleStore (key : String) (doc : CacheDoc) : DB :=
  { connected := true, cache := fun k => if k = key then some doc else none }

/-- A movie-detail upstream response wrapped in a `movie` field, with
images. -/
def movieDetailUpstream : JVal :=
  .obj [("movie", .obj [("title", .str "Inception"),
                        ("images", .obj [("poster", .str "p.jpg")])])]

/-- First request of the C1 run: GET `/movies/1` against an empty store;
the upstream answer is cached by the miss path. -/
def C1firstGet : ReqOutcome :=
  traktNewHandler emptyStore true "GET" "/movies/1" "{}" 0
    (.ok 200 movieDetailUpstream) (.fail "unused") (fun _ => false)

/-- Second request of the C1 run: the same GET served from the cache. -/
def C1secondGet : ReqOutcome :=
  traktNewHandler C1firstGet.db true "GET" "/movies/1" "{}" 0
    (.ok 200 .null) (.fail "network down") (fun _ => false)

/-- A cached movie-detail entry, written in the wrapped format with the
image flag stored false. -/
def C2entry : CacheDoc :=
  { fields := [("data",
      .obj [("title", .str "Inception"),
            ("_hasImages", .bool false), ("_cacheStatus", .str "HIT")])],
    createdAt := 0, updatedAt := none }

/-- A well-formed image-extended upstream response. -/
def C2imagesJson : JVal :=
  .obj [("movie", .obj [("images", .obj [("poster", .str "p.jpg")])])]

/-- First GET of scenario B: cache hit on `C2entry`, image flag false, so
the enrichment backfill runs and rewrites the entry. -/
def C2firstGet : ReqOutcome :=
  traktNewHandler (singleStore "/movies/1{}" C2entry) true "GET" "/movies/1"
    "{}" 0 (.ok 200 .null) (.ok C2imagesJson) (fun _ => false)

/-- Second GET of scenario B, against the store left by the first. -/
def C2secondGet : ReqOutcome :=
  traktNewHandler C2firstGet.db true "GET" "/movies/1" "{}" 0
    (.ok 200 .null) (.ok C2imagesJson) (fun _ => false)

/-- A double-nested legacy entry (`rawEntry.data.data`) with no image-flag
field anywhere. -/
def C3doubleNested : CacheDoc :=
  { fields := [("data", .obj [("data", .obj [("title", .str "Heat")])])],
    createdAt := 0, updatedAt := none }

/-- A single-nested legacy entry (`rawEntry.data`) with no image-flag
field. -/
def C3singleNested : CacheDoc :=
  { fields := [("data", .obj [("title", .str "Heat")])],
    createdAt := 0, updatedAt := none }

/-- A movie-detail GET served from the double-nested entry. -/
def C3hitRun : ReqOutcome :=
  traktNewHandler (singleStore "/movies/5{}" C3doubleNested) true "GET"
    "/movies/5" "{}" 0 (.ok 200 .null) (.fail "network down") (fun _ => false)

/-- A physically present seeded entry, 25 hours old at read time. -/
def C4staleDoc : CacheDoc :=
  { fields := [("data", .obj [("title", .str "OldCopy")])],
    createdAt := 0, updatedAt := none }

/-- A decodable bare movie element with trakt id 7. -/
def C4item : JVal :=
  .obj [("title", .str "NewCopy"), ("ids", .obj [("trakt", .num 7)])]

/-- Batch-seeding `C4item` at a time when the existing entry for its key is
25 hours old. -/
def C4overwriteRun : DB :=
  cacheMovieItem (singleStore "trakt-movies-7" C4staleDoc) C4item
    (25 * 3600000) (fun _ => false)

/-- A cached movies-trending list entry in the wrapped format. -/
def C5trendingEntry : CacheDoc :=
  { fields := [("data", .arr [.obj [("movie",
      .obj [("title", .str "Heat"), ("ids", .obj [("trakt", .num 7)])])]])],
    createdAt := 0, updatedAt := none }

/-- A cache hit on the movies-trending list entry. -/
def C5trendingHit : ReqOutcome :=
  traktNewHandler (singleStore "/movies/trending/{}" C5trendingEntry) true
    "GET" "/movies/trending/" "{}" 0 (.ok 200 .null) (.fail "network down")
    (fun _ => false)

/-- A cached show-detail entry in the wrapped format, without images. -/
def C5showEntry : CacheDoc :=
  { fields := [("data", .obj [("title", .str "Lost")])],
    createdAt := 0, updatedAt := none }

/-- A cached entry created at time 0, read 25 hours later in the C6
witness. -/
def C6doc : CacheDoc :=
  { fields := [("data", .obj [("title", .str "Heat")])],
    createdAt := 0, updatedAt := none }

/-- An arbitrary document for the C7 witness. -/
def C7doc : CacheDoc :=
  { fields := [("data", .obj [("x", .num 1)])],
    createdAt := 0, updatedAt := none }

/-- A cached movie-detail entry used by the C9 witness. -/
def C9entry : CacheDoc :=
  { fields := [("data", .obj [("title", .str "Heat")])],
    createdAt := 0, updatedAt := none }

/-- A store-error oracle for the C9 witness: items not marked `ok`
throw. -/
def C9fault : JVal → Bool := fun v => !(v.get "ok").truthy

/-- A decodable list element whose nested movie is marked `ok`. -/
def C9good : JVal :=
  .obj [("movie", .obj [("ok", .bool true), ("title", .str "G"),
                        ("ids", .obj [("trakt", .num 3)])])]

/-- A list element whose processing throws under `C9fault`. -/
def C9bad : JVal := .num 5

/-- A show-detail body carrying top-level images but no `movie` wrapper,
for the C10 witness. -/
def C10showJson : JVal :=
  .obj [("title", .str "Lost"), ("images", .obj [("poster", .str "p.jpg")])]

section

attribute [local semireducible] Rat.add Rat.sub Rat.mul Rat.inv

/-- The enrichment block issues exactly one upstream image fetch whenever
it runs, whatever the outcome. -/
theorem enrichImages_fetches (data : JVal) (db : DB) (k : String) (now : ℚ)
    (imf : FetchOutcome) : (enrichImages data db k now imf).fetches = 1 := by
  cases imf with
  | fail _ => rfl
  | ok j =>
      unfold enrichImages
      dsimp only
      split
      · cases data <;> rfl
      · rfl

/-- The enrichment fetch count of a whole request is the one computed by
the cache-lookup phase; the miss path never changes it. -/
theorem traktNewHandler_enrichFetches (db : DB)
    (method path queryStr : String) (now : ℚ) (mf : MainFetchOutcome)
    (imf : FetchOutcome) (sf : JVal → Bool) :
    (traktNewHandler db true method path queryStr now mf imf sf).enrichFetches
      = (traktNewHitPhase db path (path ++ queryStr) now method
          imf).enrichFetches := by
  unfold traktNewHandler
  rw [if_neg (show ¬((!true) = true) by simp)]
  dsimp only
  split
  · rfl
  · cases mf <;> rfl

/-- C1: the spec requires the marker fields `_hasImages` / `_cacheStatus`
never to appear in a client response body.  The code violates this: the
miss path's `cacheResponse` stores the payload under a `data` wrapper, so
the next GET's hit takes the single-nested branch (app.js line 287), which
returns the payload without stripping the markers — only the unreachable
direct branch strips them.  On this concrete run the HIT response body
carries both markers. -/
theorem C1_cache_hit_leaks_markers :
    C1secondGet.xCache = some (.str "HIT")
    ∧ C1secondGet.body.get "_cacheStatus" = .str "HIT"
    ∧ (C1secondGet.body.get "_hasImages").isDefined = true :=
  ⟨rfl, rfl, rfl⟩

/-- C2: scenario B.  The first GET on an entry whose stored image flag is
false issues exactly one enrichment fetch and rewrites the entry with
`_hasImages: true` inside the wrapped payload — that much matches the
claim.  Its final part fails: the read path looks for the flag at
`cached._hasImages` (document level) or `cached.data.hasImages` (no
underscore), never at `cached.data._hasImages` where it was stored, so the
next GET computes `hasImages = false` again and issues one more enrichment
fetch instead of zero. -/
theorem C2_enrichment_retriggered :
    C2firstGet.enrichFetches = 1
    ∧ (C2firstGet.db.cache "/movies/1{}").map
        (fun d => ((JVal.obj d.fields).get "data").get "_hasImages") =
      some (.bool true)
    ∧ C2secondGet.xCache = some (.str "HIT")
    ∧ (C2secondGet.body.get "movie").get "images" =
        .obj [("poster", .str "p.jpg")]
    ∧ C2secondGet.enrichFetches = 1 :=
  ⟨rfl, rfl, rfl, rfl, rfl⟩

/-- C3: the spec says nested-shape entries normalize to `hasImages = true`.
The code computes the flag from `cached._hasImages` or
`cached.data.hasImages` only, defaulting to `false` — both nested entries
below yield `false`, and a movie-detail hit on the double-nested entry
issues an enrichment fetch. -/
theorem C3_nested_flag_counterexample :
    (((JVal.obj C3doubleNested.fields).get "data").get "data").truthy = true
    ∧ hitHasImages (processHit C3doubleNested).docFields = .bool false
    ∧ ((JVal.obj C3singleNested.fields).get "data").truthy = true
    ∧ hitHasImages (processHit C3singleNested).docFields = .bool false
    ∧ C3hitRun.xCache = some (.str "HIT")
    ∧ C3hitRun.enrichFetches = 1 :=
  ⟨rfl, rfl, rfl, rfl, rfl, rfl⟩

/-- C3 amended: for every nested-shape entry (truthy `data` field) the
normalizer keeps the document fields intact (no marker stripping), reports
cacheStatus HIT, extracts the inner value, and computes `hasImages` from
the document-level `_hasImages` field if defined, else from the wrapper's
`hasImages` field if defined, else `false` — never the constant `true` the
spec states, so enrichment can trigger for such movie entries. -/
theorem C3_nested_normalization (doc : CacheDoc)
    (h : ((JVal.obj doc.fields).get "data").truthy = true) :
    (processHit doc).docFields = doc.fields
    ∧ (processHit doc).cacheStatus = .str "HIT"
    ∧ (processHit doc).data =
        (if (((JVal.obj doc.fields).get "data").get "data").truthy then
          ((JVal.obj doc.fields).get "data").get "data"
        else (JVal.obj doc.fields).get "data")
    ∧ hitHasImages (processHit doc).docFields =
        (if ((JVal.obj doc.fields).get "_hasImages").isDefined then
          (JVal.obj doc.fields).get "_hasImages"
        else if (((JVal.obj doc.fields).get "data").get "hasImages").isDefined
          then ((JVal.obj doc.fields).get "data").get "hasImages"
          else .bool false) := by
  unfold processHit hitHasImages
  by_cases h2 : (((JVal.obj doc.fields).get "data").get "data").truthy = true
  · simp [h, h2]
  · simp [h, h2]

/-- C3 witness: the amended normalization evaluated on the single-nested
entry gives `hasImages = false`. -/
theorem C3_nested_normalization_witness :
    ((JVal.obj C3singleNested.fields).get "data").truthy = true
    ∧ hitHasImages (processHit C3singleNested).docFields = .bool false :=
  ⟨rfl, ((C3_nested_normalization C3singleNested rfl).2.2.2).trans rfl⟩

/-- C4: a physically present but 25-hour-old entry does NOT stop batch
seeding: `cacheMovieItem`'s existence check goes through
`getCachedResponse`, which filters TTL-stale documents, so the stale entry
is overwritten (new payload, new `createdAt`) — refuting "never overwrites
an existing entry ... whether fresh or older than the 24-hour TTL". -/
theorem C4_stale_overwrite_counterexample :
    ((singleStore "trakt-movies-7" C4staleDoc).cache "trakt-movies-7").isSome
      = true
    ∧ (C4overwriteRun.cache "trakt-movies-7").map
        (fun d => ((JVal.obj d.fields).get "data").get "title") =
      some (.str "NewCopy")
    ∧ (C4overwriteRun.cache "trakt-movies-7").map CacheDoc.createdAt =
      some (25 * 3600000) :=
  ⟨rfl, rfl, rfl⟩

/-- C4 amended: batch seeding skips its write exactly when a FRESH
(within-TTL) entry exists for the derived per-item key; fresh entries are
never overwritten by seeding (stale ones are, per the counterexample). -/
theorem C4_seed_skips_only_fresh (db : DB) (item : JVal) (now : ℚ)
    (fault : JVal → Bool) :
    (∀ doc, getCachedResponse db (movieSeedKey item) now = some doc →
      cacheMovieItem db item now fault = db)
    ∧ (∀ doc, getCachedResponse db (showSeedKey item) now = some doc →
      cacheShowItem db item now fault = db) := by
  constructor
  · intro doc h
    unfold cacheMovieItem
    split
    · rfl
    · dsimp only
      split
      · rfl
      · rw [h]
  · intro doc h
    unfold cacheShowItem
    split
    · rfl
    · dsimp only
      split
      · rfl
      · rw [h]

/-- C4 witness: with the same entry still fresh (read at time 0), the
seeding write is skipped and the store is unchanged. -/
theorem C4_seed_skips_only_fresh_witness :
    getCachedResponse (singleStore "trakt-movies-7" C4staleDoc)
        (movieSeedKey C4item) 0 = some C4staleDoc
    ∧ cacheMovieItem (singleStore "trakt-movies-7" C4staleDoc) C4item 0
        (fun _ => false) = singleStore "trakt-movies-7" C4staleDoc :=
  ⟨rfl, (C4_seed_skips_only_fresh (singleStore "trakt-movies-7" C4staleDoc)
      C4item 0 (fun _ => false)).1 C4staleDoc rfl⟩

/-- C5: a cache hit on `/movies/trending/` — a list endpoint — issues an
enrichment fetch, because the gate is `path.startsWith("/movies/")`, which
matches the movie list endpoints too; the claim says list hits issue
zero. -/
theorem C5_movies_list_enrichment_counterexample :
    C5trendingHit.xCache = some (.str "HIT")
    ∧ C5trendingHit.enrichFetches = 1 :=
  ⟨rfl, rfl⟩

/-- C5 amended: on a cache hit, zero enrichment fetches are issued when the
path does not start with `/movies/` (show detail, search, show lists), and
exactly one is issued whenever the path starts with `/movies/` — movie
detail or movie list alike — and the computed image flag is falsy; a
truthy flag means zero. -/
theorem C5_enrichment_gate (db : DB) (method path queryStr : String)
    (now : ℚ) (mf : MainFetchOutcome) (imf : FetchOutcome) (sf : JVal → Bool)
    (doc : CacheDoc)
    (hm : isCacheableReq method path = true)
    (hc : getCachedResponse db (path ++ queryStr) now = some doc) :
    (strStartsWith path "/movies/" = false →
      (traktNewHandler db true method path queryStr now mf imf
        sf).enrichFetches = 0)
    ∧ ((strStartsWith path "/movies/" = true ∧
        (hitHasImages (processHit doc).docFields).truthy = false) →
      (traktNewHandler db true method path queryStr now mf imf
        sf).enrichFetches = 1)
    ∧ ((hitHasImages (processHit doc).docFields).truthy = true →
      (traktNewHandler db true method path queryStr now mf imf
        sf).enrichFetches = 0) := by
  have hmain : (traktNewHandler db true method path queryStr now mf imf
      sf).enrichFetches =
      (if !(hitHasImages (processHit doc).docFields).truthy &&
          strStartsWith path "/movies/" then 1 else 0) := by
    rw [traktNewHandler_enrichFetches]
    unfold traktNewHitPhase
    rw [hm, if_pos rfl, hc]
    dsimp only
    by_cases hcond : (!(hitHasImages (processHit doc).docFields).truthy &&
        strStartsWith path "/movies/") = true
    · simp [hcond, enrichImages_fetches]
    · simp [hcond]
  refine ⟨fun hn => ?_, fun hs => ?_, fun hi => ?_⟩
  · simp [hmain, hn]
  · simp [hmain, hs.1, hs.2]
  · simp [hmain, hi]

/-- C5 witness: a show-detail cache hit issues zero enrichment fetches. -/
theorem C5_enrichment_gate_witness :
    strStartsWith "/shows/9" "/movies/" = false
    ∧ (traktNewHandler (singleStore "/shows/9{}" C5showEntry) true "GET"
        "/shows/9" "{}" 0 (.ok 200 .null) (.fail "x")
        (fun _ => false)).enrichFetches = 0 :=
  ⟨rfl,
    (C5_enrichment_gate (singleStore "/shows/9{}" C5showEntry) "GET"
      "/shows/9" "{}" 0 (.ok 200 .null) (.fail "x") (fun _ => false)
      C5showEntry rfl rfl).1 rfl⟩

/-- C6: `getCachedResponse` on an available store returns Miss exactly when
no document exists for the key or when the real-valued hour difference
`(now − createdAt) / (1000·60·60)` exceeds 24; on a Miss the document (if
any) is still physically present — the lookup returns the store's document
untouched, and the handler's cache-lookup phase leaves the store unchanged
on a Miss. -/
theorem C6_get_miss_iff (db : DB) (key : String) (now : ℚ)
    (hconn : db.connected = true) :
    (db.cache key = none → getCachedResponse db key now = none)
    ∧ (∀ doc, db.cache key = some doc →
        ((getCachedResponse db key now = none ↔
          (now - doc.createdAt) / (1000 * 60 * 60) > 24)
        ∧ (getCachedResponse db key now = none → db.cache key = some doc)))
    ∧ (∀ path method imf, getCachedResponse db key now = none →
        (traktNewHitPhase db path key now method imf).db = db) := by
  refine ⟨?_, ?_, ?_⟩
  · intro h
    simp [getCachedResponse, hconn, h]
  · intro doc h
    refine ⟨?_, fun _ => h⟩
    by_cases ht : (now - doc.createdAt) / (1000 * 60 * 60) > 24 <;>
      simp [getCachedResponse, hconn, h, ht]
  · intro path method imf h
    unfold traktNewHitPhase
    by_cases hcr : isCacheableReq method path = true <;> simp [hcr, h]

/-- C6 witness: a document created at time 0 and read 25 hours later is a
Miss while still present in the store. -/
theorem C6_get_miss_iff_witness :
    (singleStore "k" C6doc).cache "k" = some C6doc
    ∧ getCachedResponse (singleStore "k" C6doc) "k" (25 * 3600000) = none :=
  ⟨rfl,
    ((C6_get_miss_iff (singleStore "k" C6doc) "k" (25 * 3600000) rfl).2.1
      C6doc rfl).1.mpr (by norm_num [C6doc])⟩

/-- C7: `updateCachedResponse` — `updateOne` without the upsert option —
never creates an entry: every key's presence is unchanged; when no
document matches the key, the store is completely untouched; when one
exists on a connected store, its `data` field is replaced and `updatedAt`
set to now, with `createdAt` kept. -/
theorem C7_update_never_creates (db : DB) (key : String) (payload : JVal)
    (now : ℚ) :
    (∀ k, ((updateCachedResponse db key payload now).cache k).isSome =
      (db.cache k).isSome)
    ∧ (db.cache key = none → updateCachedResponse db key payload now = db)
    ∧ (∀ doc, db.connected = true → db.cache key = some doc →
        (updateCachedResponse db key payload now).cache key =
          some { fields := setField doc.fields "data" payload,
                 createdAt := doc.createdAt, updatedAt := some now }) := by
  refine ⟨?_, ?_, ?_⟩
  · intro k
    unfold updateCachedResponse
    by_cases hc : db.connected <;> simp [hc]
    by_cases hk : k = key
    · subst hk
      cases h : db.cache k <;> simp [h]
    · simp [hk]
  · intro h
    cases db with
    | mk conn cache =>
        have h' : cache key = none := h
        unfold updateCachedResponse
        cases conn with
        | false => rfl
        | true =>
            rw [if_pos rfl]
            refine congrArg (DB.mk true) ?_
            funext k
            by_cases hk : k = key
            · subst hk
              rw [if_pos rfl]
              simp [h']
            · rw [if_neg hk]
  · intro doc hc h
    unfold updateCachedResponse
    simp [hc, h]

/-- C7 witness: updating an absent key leaves the store identical; updating
the present key rewrites `data` and `updatedAt` only. -/
theorem C7_update_never_creates_witness :
    (singleStore "a" C7doc).cache "b" = none
    ∧ updateCachedResponse (singleStore "a" C7doc) "b" (.num 5) 3 =
        singleStore "a" C7doc
    ∧ (updateCachedResponse (singleStore "a" C7doc) "a" (.num 5) 3).cache "a"
        = some { fields := setField C7doc.fields "data" (.num 5),
                 createdAt := 0, updatedAt := some 3 } :=
  ⟨rfl,
   (C7_update_never_creates (singleStore "a" C7doc) "b" (.num 5) 3).2.1 rfl,
   (C7_update_never_creates (singleStore "a" C7doc) "a" (.num 5) 3).2.2
     C7doc rfl rfl⟩

/-- On a hit, the cache-status variable is always the string HIT, provided
a direct-format entry's stored `_cacheStatus` marker (the only other
source) is HIT when truthy. -/
theorem processHit_cacheStatus (doc : CacheDoc)
    (hmk : ((JVal.obj doc.fields).get "_cacheStatus").truthy = true →
      (JVal.obj doc.fields).get "_cacheStatus" = .str "HIT") :
    (processHit doc).cacheStatus = .str "HIT" := by
  unfold processHit
  dsimp only
  split
  · rfl
  · split
    · rfl
    · dsimp only
      unfold jsOr
      split
      · exact hmk (by assumption)
      · rfl

/-- The cache-status produced by the lookup phase is HIT or MISS, under the
same marker assumption for the entry at the looked-up key. -/
theorem hitPhase_cacheStatus (db : DB) (path key : String) (now : ℚ)
    (method : String) (imf : FetchOutcome)
    (hmk : ∀ doc, getCachedResponse db key now = some doc →
      ((JVal.obj doc.fields).get "_cacheStatus").truthy = true →
      (JVal.obj doc.fields).get "_cacheStatus" = .str "HIT") :
    (traktNewHitPhase db path key now method imf).cacheStatus = .str "HIT"
    ∨ (traktNewHitPhase db path key now method imf).cacheStatus =
        .str "MISS" := by
  unfold traktNewHitPhase
  by_cases hcr : isCacheableReq method path = true
  · rw [hcr, if_pos rfl]
    cases hget : getCachedResponse db key now with
    | none =>
        right
        rfl
    | some doc =>
        left
        dsimp only
        have hph := processHit_cacheStatus doc (hmk doc hget)
        split <;> exact hph
  · rw [if_neg (by simp [hcr])]
    right
    rfl

/-- A request through the caching route whose primary fetch (if reached)
succeeds is always served with status 200, the proxy-identity header, and
the lookup phase's cache-status. -/
theorem traktNewHandler_ok_served (db : DB) (method path queryStr : String)
    (now : ℚ) (st : Nat) (json : JVal) (imf : FetchOutcome)
    (sf : JVal → Bool) :
    (traktNewHandler db true method path queryStr now (.ok st json) imf
      sf).status = 200
    ∧ (traktNewHandler db true method path queryStr now (.ok st json) imf
      sf).proxiedBy = true
    ∧ (traktNewHandler db true method path queryStr now (.ok st json) imf
      sf).xCache = some ((traktNewHitPhase db path (path ++ queryStr) now
        method imf).cacheStatus) := by
  unfold traktNewHandler
  rw [if_neg (show ¬((!true) = true) by simp)]
  dsimp only
  split
  · exact ⟨rfl, rfl, rfl⟩
  · exact ⟨rfl, rfl, rfl⟩

/-- C8 amended: every request served by the caching route — cacheable or
not, hit or miss — is answered with status 200, the proxy-identity header,
and an x-cache value of HIT or MISS (given that any stored direct-format
marker is the string HIT), provided the credential is configured and the
primary fetch, if reached, succeeds.  The upstream-status-verbatim
behavior belongs to the separate plain passthrough route `/api/trakt/*`,
not to the caching route. -/
theorem C8_response_contract (db : DB) (method path queryStr : String)
    (now : ℚ) (st : Nat) (json : JVal) (imf : FetchOutcome)
    (sf : JVal → Bool)
    (hmk : ∀ doc, getCachedResponse db (path ++ queryStr) now = some doc →
      ((JVal.obj doc.fields).get "_cacheStatus").truthy = true →
      (JVal.obj doc.fields).get "_cacheStatus" = .str "HIT") :
    ((traktNewHandler db true method path queryStr now (.ok st json) imf
        sf).status = 200
    ∧ (traktNewHandler db true method path queryStr now (.ok st json) imf
        sf).proxiedBy = true
    ∧ ((traktNewHandler db true method path queryStr now (.ok st json) imf
        sf).xCache = some (.str "HIT")
      ∨ (traktNewHandler db true method path queryStr now (.ok st json) imf
        sf).xCache = some (.str "MISS")))
    ∧ ((traktPassthrough true (.ok st json)).status = st
      ∧ (traktPassthrough true (.ok st json)).proxiedBy = true) := by
  have hserved := traktNewHandler_ok_served db method path queryStr now st
    json imf sf
  have hcs := hitPhase_cacheStatus db path (path ++ queryStr) now method imf
    hmk
  refine ⟨⟨hserved.1, hserved.2.1, ?_⟩, rfl, rfl⟩
  rw [hserved.2.2]
  cases hcs with
  | inl h => left; rw [h]
  | inr h => right; rw [h]

/-- C8 witness: a cacheable GET on an empty store with a 404 upstream body
is served 200/MISS by the caching route, while the passthrough route
forwards the 404. -/
theorem C8_response_contract_witness :
    (traktNewHandler emptyStore true "GET" "/movies/1" "{}" 0
      (.ok 404 .null) (.fail "x") (fun _ => false)).status = 200
    ∧ ((traktNewHandler emptyStore true "GET" "/movies/1" "{}" 0
      (.ok 404 .null) (.fail "x") (fun _ => false)).xCache =
        some (.str "HIT")
      ∨ (traktNewHandler emptyStore true "GET" "/movies/1" "{}" 0
      (.ok 404 .null) (.fail "x") (fun _ => false)).xCache =
        some (.str "MISS"))
    ∧ (traktPassthrough true (.ok 404 JVal.null)).status = 404 := by
  have h := C8_response_contract emptyStore "GET" "/movies/1" "{}" 0 404
    .null (.fail "x") (fun _ => false)
    (fun doc hd => by simp [getCachedResponse, emptyStore] at hd)
  exact ⟨h.1.1, h.1.2.2, h.2.1⟩

/-- C8: the claim's passthrough clause fails on the caching route itself: a
non-cacheable request (POST) through `/api/trakt-new/*` whose upstream
answered 404 is served with status 200 and x-cache MISS, not the upstream
status verbatim. -/
theorem C8_noncacheable_status_counterexample :
    (traktNewHandler emptyStore true "POST" "/checkin" "{}" 0
      (.ok 404 (.obj [("error", .str "not found")])) (.fail "unused")
      (fun _ => false)).status = 200
    ∧ (traktNewHandler emptyStore true "POST" "/checkin" "{}" 0
      (.ok 404 (.obj [("error", .str "not found")])) (.fail "unused")
      (fun _ => false)).xCache = some (.str "MISS") :=
  ⟨rfl, rfl⟩

/-- An element that does not itself throw on decode, but whose store write
throws inside the per-item function's try/catch, leaves the loop step a
successful no-op. -/
theorem seedArrayItem_fault (isMovie isShow : Bool) (now : ℚ)
    (fault : JVal → Bool) (db : DB) (item : JVal)
    (hnn : jsAccessThrows item = false)
    (hfm : fault (item.get "movie") = true)
    (hfs : fault (item.get "show") = true) :
    seedArrayItem isMovie isShow now fault db item = .ok db := by
  unfold seedArrayItem
  rw [hnn, Bool.and_false, Bool.and_false]
  simp only [if_neg (show ¬((false : Bool) = true) by decide)]
  split
  · unfold cacheMovieItem
    rw [if_pos hfm]
  · split
    · unfold cacheShowItem
      rw [if_pos hfs]
    · rfl

/-- C9 amended: errors in secondary, best-effort work never change the
served response: (a) a thrown enrichment fetch leaves the status, the body
and the store exactly as the cache hit produced them; (b) a malformed
enrichment response (no `movie.images`) likewise; (c) a list element that
does not throw on decode but whose store write throws inside the per-item
try/catch is skipped while the remaining elements are still processed —
an element that throws on decode itself (`null`/`undefined`) instead
aborts the remaining elements via the function-level catch, per the
counterexample; (d) the response (status, cache header, body) is
independent of the seeding fault oracle. -/
theorem C9_secondary_failure_isolated (db : DB)
    (method path queryStr : String) (now : ℚ) (mf : MainFetchOutcome)
    (imf : FetchOutcome) (sf sf2 fault : JVal → Bool) (doc : CacheDoc)
    (msg : String) (imagesJson : JVal) (pre suf : List JVal) (bad : JVal) :
    ((isCacheableReq method path = true →
      getCachedResponse db (path ++ queryStr) now = some doc →
      (processHit doc).data.truthy = true →
      ((traktNewHandler db true method path queryStr now mf (.fail msg)
          sf).status = 200
       ∧ (traktNewHandler db true method path queryStr now mf (.fail msg)
          sf).body = toWire (processHit doc).data
       ∧ (traktNewHandler db true method path queryStr now mf (.fail msg)
          sf).db = db)))
    ∧ ((isCacheableReq method path = true →
      getCachedResponse db (path ++ queryStr) now = some doc →
      (processHit doc).data.truthy = true →
      ((imagesJson.get "movie").truthy &&
        ((imagesJson.get "movie").get "images").truthy) = false →
      ((traktNewHandler db true method path queryStr now mf (.ok imagesJson)
          sf).status = 200
       ∧ (traktNewHandler db true method path queryStr now mf
          (.ok imagesJson) sf).body = toWire (processHit doc).data
       ∧ (traktNewHandler db true method path queryStr now mf
          (.ok imagesJson) sf).db = db)))
    ∧ (jsAccessThrows bad = false →
      fault (bad.get "movie") = true → fault (bad.get "show") = true →
      saveIndividualItemsFromResponse db (.arr (pre ++ bad :: suf)) path now
        fault =
      saveIndividualItemsFromResponse db (.arr (pre ++ suf)) path now fault)
    ∧ ((traktNewHandler db true method path queryStr now mf imf sf).status =
        (traktNewHandler db true method path queryStr now mf imf sf2).status
      ∧ (traktNewHandler db true method path queryStr now mf imf sf).xCache =
        (traktNewHandler db true method path queryStr now mf imf sf2).xCache
      ∧ (traktNewHandler db true method path queryStr now mf imf sf).body =
        (traktNewHandler db true method path queryStr now mf imf
          sf2).body) := by
  have core : ∀ imf2 : FetchOutcome,
      isCacheableReq method path = true →
      getCachedResponse db (path ++ queryStr) now = some doc →
      (processHit doc).data.truthy = true →
      enrichImages (processHit doc).data db (path ++ queryStr) now imf2 =
        { data := (processHit doc).data, db := db, fetches := 1 } →
      ((traktNewHandler db true method path queryStr now mf imf2 sf).status
          = 200
       ∧ (traktNewHandler db true method path queryStr now mf imf2 sf).body
          = toWire (processHit doc).data
       ∧ (traktNewHandler db true method path queryStr now mf imf2 sf).db
          = db) := by
    intro imf2 hcr hget ht he
    have hdata : (traktNewHitPhase db path (path ++ queryStr) now method
        imf2).data = (processHit doc).data := by
      unfold traktNewHitPhase
      rw [hcr, if_pos rfl, hget]
      dsimp only
      split
      · rw [he]
      · rfl
    have hdb : (traktNewHitPhase db path (path ++ queryStr) now method
        imf2).db = db := by
      unfold traktNewHitPhase
      rw [hcr, if_pos rfl, hget]
      dsimp only
      split
      · rw [he]
      · rfl
    unfold traktNewHandler
    rw [if_neg (show ¬((!true) = true) by simp)]
    dsimp only
    rw [hdata, hdb, if_pos ht]
    exact ⟨rfl, rfl, rfl⟩
  refine ⟨?_, ?_, ?_, ?_⟩
  · intro hcr hget ht
    exact core (.fail msg) hcr hget ht rfl
  · intro hcr hget ht him
    refine core (.ok imagesJson) hcr hget ht ?_
    unfold enrichImages
    dsimp only
    rw [him, if_neg (by simp)]
  · intro hnn hfm hfs
    unfold saveIndividualItemsFromResponse
    dsimp only
    split
    · rfl
    · have hloop : ∀ db0 : DB,
          seedArrayLoop (pathIncludes path "/movies/")
            (pathIncludes path "/shows/") now fault db0
            (pre ++ bad :: suf) =
          seedArrayLoop (pathIncludes path "/movies/")
            (pathIncludes path "/shows/") now fault db0 (pre ++ suf) := by
        induction pre with
        | nil =>
            intro db0
            show seedArrayLoop _ _ now fault db0 (bad :: suf) =
              seedArrayLoop _ _ now fault db0 suf
            conv_lhs => unfold seedArrayLoop
            rw [seedArrayItem_fault _ _ now fault db0 bad hnn hfm hfs]
        | cons p pre ih =>
            intro db0
            show seedArrayLoop _ _ now fault db0 (p :: (pre ++ bad :: suf)) =
              seedArrayLoop _ _ now fault db0 (p :: (pre ++ suf))
            unfold seedArrayLoop
            cases seedArrayItem (pathIncludes path "/movies/")
                (pathIncludes path "/shows/") now fault db0 p with
            | error db2 => rfl
            | ok db2 => exact ih db2
      rw [hloop db]
  · refine ⟨?_, ?_, ?_⟩ <;>
      (unfold traktNewHandler
       rw [if_neg (show ¬((!true) = true) by simp)]
       dsimp only
       split
       · rfl
       · cases mf <;> rfl)

/-- C9: the claim's "remaining list elements continue to be processed"
fails in the source: a `null` array element on a movies list throws a
TypeError at `item.movie` (app.js line 142), caught only by the
function-level catch (line 184), which aborts the loop.  With the null
element first, the decodable element after it is never seeded; without it,
it is. -/
theorem C9_null_element_aborts_counterexample :
    (saveIndividualItemsFromResponse emptyStore (.arr [.null, C9good])
      "/movies/trending" 0 (fun _ => false)).cache "trakt-movies-3" = none
    ∧ ((saveIndividualItemsFromResponse emptyStore (.arr [C9good])
      "/movies/trending" 0 (fun _ => false)).cache
        "trakt-movies-3").isSome = true :=
  ⟨rfl, rfl⟩

/-- C9 witness: on a concrete hit with a thrown enrichment fetch the
response is 200 with the store untouched, and a concrete list with a
store-faulting (but decodable) middle element seeds the same entries as
the list without it. -/
theorem C9_secondary_failure_isolated_witness :
    ((traktNewHandler (singleStore "/movies/3{}" C9entry) true "GET"
        "/movies/3" "{}" 0 (.ok 200 .null) (.fail "network down")
        (fun _ => false)).status = 200
     ∧ (traktNewHandler (singleStore "/movies/3{}" C9entry) true "GET"
        "/movies/3" "{}" 0 (.ok 200 .null) (.fail "network down")
        (fun _ => false)).db = singleStore "/movies/3{}" C9entry)
    ∧ saveIndividualItemsFromResponse emptyStore (.arr [C9good, C9bad])
        "/movies/trending" 0 C9fault =
      saveIndividualItemsFromResponse emptyStore (.arr [C9good])
        "/movies/trending" 0 C9fault := by
  have h := C9_secondary_failure_isolated (singleStore "/movies/3{}" C9entry)
    "GET" "/movies/3" "{}" 0 (.ok 200 .null) (.fail "unused")
    (fun _ => false) (fun _ => false) C9fault C9entry "network down" .null
    [C9good] [] C9bad
  have h2 := C9_secondary_failure_isolated emptyStore "GET"
    "/movies/trending" "{}" 0 (.ok 200 .null) (.fail "unused")
    (fun _ => false) (fun _ => false) C9fault C9entry "unused" .null
    [C9good] [] C9bad
  exact ⟨⟨(h.1 rfl rfl rfl).1, (h.1 rfl rfl rfl).2.2⟩, h2.2.2.1 rfl rfl rfl⟩

/-- Replacing an existing key in place: `find?` of the assigned key on the
mapped list yields the assigned pair. -/
theorem find?_map_setFn (k : String) (v : JVal)
    (fs : List (String × JVal))
    (hany : fs.any (fun p => p.1 = k) = true) :
    (fs.map (fun p => if p.1 = k then (k, v) else p)).find?
      (fun p => p.1 = k) = some (k, v) := by
  induction fs with
  | nil => simp at hany
  | cons p t ih =>
      by_cases hp : p.1 = k
      · rw [List.map_cons, if_pos hp, List.find?_cons_of_pos _ (by simp)]
      · rw [List.map_cons, if_neg hp, List.find?_cons_of_neg _ (by simp [hp])]
        refine ih ?_
        simpa [hp] using hany

/-- Appending a fresh key: `find?` of the assigned key reaches the appended
pair. -/
theorem find?_append_single (k : String) (v : JVal)
    (fs : List (String × JVal))
    (hany : fs.any (fun p => p.1 = k) = false) :
    (fs ++ [(k, v)]).find? (fun p => p.1 = k) = some (k, v) := by
  induction fs with
  | nil => simp
  | cons p t ih =>
      rw [List.any_cons, Bool.or_eq_false_iff] at hany
      rw [List.cons_append,
          List.find?_cons_of_neg _ (by simpa using hany.1)]
      exact ih hany.2

/-- Replacing key `k` in place does not affect lookups of `k' ≠ k`. -/
theorem find?_map_setFn_ne (k k' : String) (v : JVal) (hne : k' ≠ k)
    (fs : List (String × JVal)) :
    (fs.map (fun p => if p.1 = k then (k, v) else p)).find?
      (fun p => p.1 = k') = fs.find? (fun p => p.1 = k') := by
  induction fs with
  | nil => rfl
  | cons p t ih =>
      by_cases hp : p.1 = k
      · rw [List.map_cons, if_pos hp,
            List.find?_cons_of_neg _ (by simp [hne.symm]),
            List.find?_cons_of_neg _ (by simp [hp, hne.symm])]
        exact ih
      · rw [List.map_cons, if_neg hp]
        by_cases hq : p.1 = k'
        · rw [List.find?_cons_of_pos _ (by simp [hq]),
              List.find?_cons_of_pos _ (by simp [hq])]
        · rw [List.find?_cons_of_neg _ (by simp [hq]),
              List.find?_cons_of_neg _ (by simp [hq])]
          exact ih

/-- Appending key `k` does not affect lookups of `k' ≠ k`. -/
theorem find?_append_single_ne (k k' : String) (v : JVal) (hne : k' ≠ k)
    (fs : List (String × JVal)) :
    (fs ++ [(k, v)]).find? (fun p => p.1 = k') =
      fs.find? (fun p => p.1 = k') := by
  induction fs with
  | nil => simp [hne.symm]
  | cons p t ih =>
      by_cases hq : p.1 = k'
      · rw [List.cons_append, List.find?_cons_of_pos _ (by simp [hq]),
            List.find?_cons_of_pos _ (by simp [hq])]
      · rw [List.cons_append, List.find?_cons_of_neg _ (by simp [hq]),
            List.find?_cons_of_neg _ (by simp [hq])]
        exact ih

/-- Property lookup after property assignment, same key. -/
theorem get_obj_setField_self (fs : List (String × JVal)) (k : String)
    (v : JVal) : (JVal.obj (setField fs k v)).get k = v := by
  unfold setField
  split
  · rename_i hany
    unfold JVal.get
    dsimp only
    rw [find?_map_setFn k v fs hany]
  · rename_i hany
    unfold JVal.get
    dsimp only
    rw [find?_append_single k v fs (Bool.eq_false_iff.mpr hany)]

/-- Property lookup after property assignment, different key. -/
theorem get_obj_setField_of_ne (fs : List (String × JVal)) (k k' : String)
    (v : JVal) (hne : k' ≠ k) :
    (JVal.obj (setField fs k v)).get k' = (JVal.obj fs).get k' := by
  unfold setField
  split
  · unfold JVal.get
    dsimp only
    rw [find?_map_setFn_ne k k' v hne fs]
  · unfold JVal.get
    dsimp only
    rw [find?_append_single_ne k k' v hne fs]

/-- JS truthiness of `a && b`. -/
theorem truthy_jsAnd (a b : JVal) :
    (jsAnd a b).truthy = (a.truthy && b.truthy) := by
  unfold jsAnd
  by_cases h : a.truthy = true <;> simp [h]

/-- The `_hasImages` field of the payload stored by the miss path is
exactly the `data.movie && data.movie.images` value. -/
theorem get_missCachePayload (json : JVal) :
    (missCachePayload json).get "_hasImages" = missHasImages json := by
  unfold missCachePayload JVal.spreadWith
  dsimp only [List.foldl]
  rw [get_obj_setField_of_ne _ _ _ _ (by decide), get_obj_setField_self]

/-- C10: the stored miss-path image marker is `data.movie &&
data.movie.images`: truthy exactly when a top-level `movie` object with a
truthy `images` field is present; a body with no `movie` property — show
detail, search, lists, or a movie-detail body not wrapped in `movie` —
stores the falsy `undefined`, even when it carries image data elsewhere;
and that value is exactly the `_hasImages` field of the stored payload. -/
theorem C10_miss_flag_from_movie_images (json : JVal) :
    ((missHasImages json).truthy =
      ((json.get "movie").truthy &&
        ((json.get "movie").get "images").truthy))
    ∧ ((json.get "movie").isDefined = false →
        missHasImages json = .undefined)
    ∧ (missCachePayload json).get "_hasImages" = missHasImages json := by
  refine ⟨truthy_jsAnd _ _, ?_, get_missCachePayload json⟩
  intro h
  have hu : json.get "movie" = .undefined := by
    cases hj : json.get "movie"
    case undefined => rfl
    all_goals (rw [hj] at h; simp [JVal.isDefined] at h)
  unfold missHasImages
  rw [hu]
  rfl

/-- C10 witness: a show-detail body with top-level images but no `movie`
wrapper stores a falsy (undefined) marker. -/
theorem C10_miss_flag_witness :
    (C10showJson.get "images").truthy = true
    ∧ missHasImages C10showJson = .undefined :=
  ⟨rfl, (C10_miss_flag_from_movie_images C10showJson).2.1 rfl⟩

end

end Pickford
